import Mathlib

/-!
Shallow embedding of `src/message/messaging_service.cc` (pedis messaging
service): the verb-class function, the per-verb-class client cache, the
connection-creation policy (encryption, compression, preferred IP, port
selection), the send pipeline with its error handling and dropped-message
counters, the retry loop, the removal operations, and the shutdown path.

Modelling conventions:
  * IPv4 addresses are their raw `Nat` value (`inet_address::raw_addr()`).
  * `msg_addr` equality in the source ignores `cpu_id` (`operator==` at
    lines 112-115), so the cache maps are keyed by the raw address alone.
  * The client caches `std::array<clients_map, 2> _clients` become two
    association lists `_clients0` / `_clients1` with unique keys.
  * Futures are modelled by their resolved outcome: a send's rpc future is
    an `attempt_result`, a failed future carries an `rpc_error`, and the
    value returned by a send primitive is an `Except rpc_error`.
  * Scheduled `stop()` calls (on listeners and on evicted or drained
    connections) are returned explicitly as lists, so that "which stops
    are awaited/scheduled" is observable.
  * `uint64_t` dropped-message counters are `Nat` reduced modulo `2^64`
    at each increment.
-/

namespace net

/-- The verbs named in `messaging_service.cc`; the enum itself lives in the
header.  `OTHER_VERB` stands for the remaining read/write/schema/streaming
verbs, none of which is matched by `get_rpc_client_idx`. -/
inductive messaging_verb
  | CLIENT_ID
  | GOSSIP_DIGEST_SYN
  | GOSSIP_DIGEST_ACK
  | GOSSIP_DIGEST_ACK2
  | GOSSIP_SHUTDOWN
  | GOSSIP_ECHO
  | OTHER_VERB
deriving DecidableEq, Fintype

/-- `msg_addr`: broadcast address paired with source cpu id (lines 112-133);
equality, ordering and hashing ignore `cpu_id`. -/
structure msg_addr where
  addr : Nat
  cpu_id : Nat
deriving DecidableEq

/-- `encrypt_what` policy enum (header; used at lines 206, 225, 415-428). -/
inductive encrypt_what
  | none
  | all
  | dc
  | rack
deriving DecidableEq

/-- `compress_what` policy enum (header; used at lines 206, 435-439). -/
inductive compress_what
  | none
  | dc
  | all
deriving DecidableEq

/-- `rpc_protocol_client_wrapper` (lines 89-104): one outbound connection.
We record the constructor arguments that the claims talk about (remote
address and port, whether the TLS constructor and the compressor were
chosen) together with the transport health flag `error()`. -/
structure rpc_protocol_client_wrapper where
  remote_addr : Nat
  remote_port : Nat
  encrypted : Bool
  compressed : Bool
  error : Bool
deriving DecidableEq

/-- `shard_info` (lines 135-137): the cache entry, holding the client. -/
structure shard_info where
  rpc_client : rpc_protocol_client_wrapper
deriving DecidableEq

/-- One `clients_map` (`std::unordered_map<msg_addr, shard_info>`), keyed by
the raw address since `msg_addr` equality ignores `cpu_id`.  Keys are
unique, as in the source map. -/
abbrev clients_map : Type := List (Nat × shard_info)

/-- `unordered_map::find`. -/
def clients_find (m : clients_map) (k : Nat) : Option shard_info :=
  match m with
  | [] => Option.none
  | (k₂, v) :: rest => if k₂ = k then some v else clients_find rest k

/-- `unordered_map::erase` of the entry at key `k` (keys are unique, so
removing every binding of `k` models erasing the found iterator). -/
def clients_erase (m : clients_map) (k : Nat) : clients_map :=
  match m with
  | [] => []
  | (k₂, v) :: rest =>
    if k₂ = k then clients_erase rest k else (k₂, v) :: clients_erase rest k

/-- `unordered_map::emplace`: inserts only when the key is absent (at the
one call site, line 466, the key is always absent). -/
def clients_insert (m : clients_map) (k : Nat) (v : shard_info) : clients_map :=
  match clients_find m k with
  | some _ => m
  | Option.none => (k, v) :: m

/-- The per-core `messaging_service` state: the fields of the class that the
claims mention (constructor, lines 249-265; `_server`/`_server_tls` slots
hold abstract listener identifiers). -/
structure messaging_service where
  _stopping : Bool
  _port : Nat
  _ssl_port : Nat
  _encrypt_what : encrypt_what
  _compress_what : compress_what
  _listen_address : Nat
  _preferred_ip_cache : List (Nat × Nat)
  _clients0 : clients_map
  _clients1 : clients_map
  _dropped_messages : messaging_verb → Nat
  _server0 : Option Nat
  _server1 : Option Nat
  _server_tls0 : Option Nat
  _server_tls1 : Option Nat

/-- `_clients[idx]` (indices 0 and 1; any other index never occurs). -/
def clients_of (ms : messaging_service) (idx : Nat) : clients_map :=
  if idx = 1 then ms._clients1 else ms._clients0

/-- Write back `_clients[idx]`. -/
def set_clients (ms : messaging_service) (idx : Nat) (m : clients_map) :
    messaging_service :=
  if idx = 1 then { ms with _clients1 := m } else { ms with _clients0 := m }

/-- `get_rpc_client_idx` (lines 334-347): verb class 1 for the four chatty
gossip verbs, 0 otherwise. -/
def get_rpc_client_idx (verb : messaging_verb) : Nat :=
  if verb = messaging_verb.GOSSIP_DIGEST_SYN ∨
     verb = messaging_verb.GOSSIP_DIGEST_ACK2 ∨
     verb = messaging_verb.GOSSIP_SHUTDOWN ∨
     verb = messaging_verb.GOSSIP_ECHO then 1 else 0

/-- `get_preferred_ip` (lines 358-373).  The cache/snitch consultation in
the body is commented out in the source; the live code returns `ep`
unconditionally. -/
def get_preferred_ip (ms : messaging_service) (ep : Nat) : Nat :=
  ep

/-- `cache_preferred_ip` (lines 396-398). -/
def cache_preferred_ip (ms : messaging_service) (ep ip : Nat) :
    messaging_service :=
  { ms with _preferred_ip_cache := (ep, ip) :: ms._preferred_ip_cache }

/-- The `must_encrypt` lambda inside `get_rpc_client` (lines 413-432).  The
policy evaluation (`_encrypt_what`, snitch) is commented out in the source;
the live code is `return false;`. -/
def must_encrypt (ms : messaging_service) (id : msg_addr) : Bool :=
  false

/-- The `must_compress` lambda inside `get_rpc_client` (lines 434-448):
`none` yields false; the `dc` branch's snitch comparison is commented out,
so control falls through to `return true;` for both `dc` and `all`. -/
def must_compress (ms : messaging_service) (id : msg_addr) : Bool :=
  if ms._compress_what = compress_what.none then false else true

/-- `remove_rpc_client_one` (lines 475-497) on the map `_clients[idx]`.
Returns the new state together with the list of connections whose `stop()`
was scheduled (the erased client, when an erase happens).  When `_stopping`
holds it returns immediately, touching nothing. -/
def remove_rpc_client_one (ms : messaging_service) (idx : Nat) (id : msg_addr)
    (dead_only : Bool) :
    messaging_service × List rpc_protocol_client_wrapper :=
  if ms._stopping then (ms, [])
  else
    match clients_find (clients_of ms idx) id.addr with
    | some si =>
      if !dead_only || si.rpc_client.error then
        (set_clients ms idx (clients_erase (clients_of ms idx) id.addr),
         [si.rpc_client])
      else (ms, [])
    | Option.none => (ms, [])

/-- `remove_error_rpc_client` (lines 499-501): dead-only removal in the
verb's class. -/
def remove_error_rpc_client (ms : messaging_service) (verb : messaging_verb)
    (id : msg_addr) :
    messaging_service × List rpc_protocol_client_wrapper :=
  remove_rpc_client_one ms (get_rpc_client_idx verb) id true

/-- `remove_rpc_client` (lines 503-507): unconditional removal from every
class, in array order. -/
def remove_rpc_client (ms : messaging_service) (id : msg_addr) :
    messaging_service × List rpc_protocol_client_wrapper :=
  let r0 := remove_rpc_client_one ms 0 id false
  let r1 := remove_rpc_client_one r0.1 1 id false
  (r1.1, r0.2 ++ r1.2)

/-- The connection built at lines 450-464: preferred-IP resolution, port
selection (`_ssl_port` when encrypting, `_port` otherwise), optional
compressor, TLS constructor when encrypting, healthy on creation. -/
def make_new_client (ms : messaging_service) (id : msg_addr) :
    rpc_protocol_client_wrapper :=
  { remote_addr := get_preferred_ip ms id.addr
  , remote_port := if must_encrypt ms id then ms._ssl_port else ms._port
  , encrypted := must_encrypt ms id
  , compressed := must_compress ms id
  , error := false }

/-- The tail of `get_rpc_client` after the cache miss (lines 413-472):
build the client and emplace it into `_clients[idx]`. -/
def get_rpc_client_new (ms : messaging_service) (idx : Nat) (id : msg_addr) :
    rpc_protocol_client_wrapper × messaging_service :=
  let c := make_new_client ms id
  (c, set_clients ms idx (clients_insert (clients_of ms idx) id.addr ⟨c⟩))

/-- `get_rpc_client` (lines 400-473).  Precondition (assert, line 401):
`!_stopping`.  A cached healthy client is returned as is; a cached client
in error state is evicted through `remove_error_rpc_client` and a fresh
client is built and inserted. -/
def get_rpc_client (ms : messaging_service) (verb : messaging_verb)
    (id : msg_addr) : rpc_protocol_client_wrapper × messaging_service :=
  let idx := get_rpc_client_idx verb
  match clients_find (clients_of ms idx) id.addr with
  | some si =>
    if !si.rpc_client.error then (si.rpc_client, ms)
    else get_rpc_client_new (remove_error_rpc_client ms verb id).1 idx id
  | Option.none => get_rpc_client_new ms idx id

/-- The error carried by a failed rpc future: `rpc::closed_error`,
`rpc::timeout_error`, or any other exception (e.g. a remote handler
error). -/
inductive rpc_error
  | closed_error
  | timeout_error
  | other_error
deriving DecidableEq

/-- The resolved outcome of one rpc future handed back by the transport. -/
inductive attempt_result (α : Type)
  | ok : α → attempt_result α
  | err : rpc_error → attempt_result α
deriving DecidableEq

/-- Whether an rpc future resolved with failure (`f.failed()`). -/
def attempt_failed {α : Type} : attempt_result α → Bool
  | attempt_result.ok _ => false
  | attempt_result.err _ => true

/-- `increment_dropped_messages` (lines 161-163): `uint64_t` cell keyed by
the verb, incremented modulo `2^64`. -/
def increment_dropped_messages (ms : messaging_service)
    (verb : messaging_verb) : messaging_service :=
  { ms with _dropped_messages := fun v =>
      if v = verb then (ms._dropped_messages verb + 1) % 2 ^ 64
      else ms._dropped_messages v }

/-- `send_message` (lines 514-540), with the rpc future's eventual outcome
passed in as `outcome`.  If `_stopping`, a pre-failed future with
`closed_error` is returned and the state is untouched; otherwise the
client is obtained (possibly mutating the cache), and on failure the
dropped counter is incremented and — only for `closed_error` — the
client is evicted via `remove_error_rpc_client`. -/
def send_message {α : Type} (ms : messaging_service) (verb : messaging_verb)
    (id : msg_addr) (outcome : attempt_result α) :
    Except rpc_error α × messaging_service :=
  if ms._stopping then (Except.error rpc_error.closed_error, ms)
  else
    let ms₁ := (get_rpc_client ms verb id).2
    match outcome with
    | attempt_result.ok v => (Except.ok v, ms₁)
    | attempt_result.err e =>
      let ms₂ := increment_dropped_messages ms₁ verb
      match e with
      | rpc_error.closed_error =>
        (Except.error e, (remove_error_rpc_client ms₂ verb id).1)
      | _ => (Except.error e, ms₂)

/-- `send_message_timeout` (lines 543-569): the source duplicates the body
of `send_message` verbatim (the timeout only parameterises the rpc call,
whose outcome is `outcome` here).  `send_message_oneway` (lines 626-629)
is `send_message` at the no-wait response type, and
`send_message_oneway_timeout` (lines 632-635) is this function. -/
def send_message_timeout {α : Type} (ms : messaging_service)
    (verb : messaging_verb) (id : msg_addr) (outcome : attempt_result α) :
    Except rpc_error α × messaging_service :=
  if ms._stopping then (Except.error rpc_error.closed_error, ms)
  else
    let ms₁ := (get_rpc_client ms verb id).2
    match outcome with
    | attempt_result.ok v => (Except.ok v, ms₁)
    | attempt_result.err e =>
      let ms₂ := increment_dropped_messages ms₁ verb
      match e with
      | rpc_error.closed_error =>
        (Except.error e, (remove_error_rpc_client ms₂ verb id).1)
      | _ => (Except.error e, ms₂)

/-- The retry loop of `send_message_timeout_and_retry` (lines 571-623).
`f k` is the outcome of the `(k+1)`-th `send_message_timeout` attempt;
`stopping` and `known` are the values observed by the checks at lines
599 and 604; the abortable sleep is modelled as completing normally.
Arguments mirror the loop state: the remaining retry budget (the C++
`retry`, an `int`, here a `Nat`: the loop is only entered with
`nr_retry ≥ 1` and the budget stays positive at every recursive call) and
the index of the next attempt.  Returns the result together with the
number of attempts issued. -/
def send_message_timeout_and_retry {α : Type} (f : Nat → attempt_result α)
    (stopping : Bool) (known : Bool) :
    Nat → Nat → Except rpc_error α × Nat
  | nr_retry, k =>
    match f k, nr_retry with
    | attempt_result.ok v, _ => (Except.ok v, 1)
    | attempt_result.err rpc_error.timeout_error, _ =>
      (Except.error rpc_error.timeout_error, 1)
    | attempt_result.err rpc_error.other_error, _ =>
      (Except.error rpc_error.other_error, 1)
    | attempt_result.err rpc_error.closed_error, 0 =>
      (Except.error rpc_error.closed_error, 1)
    | attempt_result.err rpc_error.closed_error, 1 =>
      (Except.error rpc_error.closed_error, 1)
    | attempt_result.err rpc_error.closed_error, r + 2 =>
      if stopping then (Except.error rpc_error.closed_error, 1)
      else if !known then (Except.error rpc_error.closed_error, 1)
      else
        let res := send_message_timeout_and_retry f stopping known (r + 1) (k + 1)
        (res.1, res.2 + 1)

/-- `stop_nontls_server` (lines 308-315): the loop returns the `stop()`
future of the FIRST non-null slot of `_server`; when both slots are empty
a ready future (no stop awaited) is returned. -/
def stop_nontls_server (ms : messaging_service) : List Nat :=
  match ms._server0 with
  | some l => [l]
  | Option.none =>
    match ms._server1 with
    | some l => [l]
    | Option.none => []

/-- `stop_tls_server` (lines 299-306): same shape over `_server_tls`. -/
def stop_tls_server (ms : messaging_service) : List Nat :=
  match ms._server_tls0 with
  | some l => [l]
  | Option.none =>
    match ms._server_tls1 with
    | some l => [l]
    | Option.none => []

/-- `stop_client` (lines 317-323): `parallel_for_each` over both cache
tables, stopping every cached connection. -/
def stop_client (ms : messaging_service) :
    List rpc_protocol_client_wrapper :=
  (ms._clients0 ++ ms._clients1).map (fun p => p.2.rpc_client)

/-- `stop` (lines 325-328): set `_stopping`, then
`when_all(stop_nontls_server(), stop_tls_server(), stop_client())` — the
three groups awaited in parallel are returned as a triple of lists. -/
def stop (ms : messaging_service) :
    messaging_service × (List Nat × List Nat × List rpc_protocol_client_wrapper) :=
  ({ ms with _stopping := true },
   (stop_nontls_server ms, stop_tls_server ms, stop_client ms))

/-- One externally observable event in the service's lifetime: a send whose
rpc future resolves with the given outcome, or a `stop()` call. -/
inductive ms_event
  | send_ev : messaging_verb → msg_addr → attempt_result Nat → ms_event
  | stop_ev : ms_event

/-- State transition of one event. -/
def ms_step (ms : messaging_service) : ms_event → messaging_service
  | ms_event.send_ev v id o => (send_message ms v id o).2
  | ms_event.stop_ev => (stop ms).1

/-- Run a list of events. -/
def ms_run (ms : messaging_service) : List ms_event → messaging_service
  | [] => ms
  | e :: tr => ms_run (ms_step ms e) tr

/-- Number of outbound send futures for verb `v` that resolve with failure
along a run: sends issued while `_stopping` holds never reach the
transport (they are pre-failed with no side effects) and are not
outbound. -/
def outbound_failures (ms : messaging_service) (v : messaging_verb) :
    List ms_event → Nat
  | [] => 0
  | e :: tr =>
    (match e with
     | ms_event.send_ev v₂ _ o =>
       if ms._stopping = false ∧ v₂ = v ∧ attempt_failed o = true then 1 else 0
     | ms_event.stop_ev => 0) + outbound_failures (ms_step ms e) v tr

/-- A quiescent service: not stopping, plain port 7000, TLS port 7001,
policies `none`, empty caches, zeroed counters, no listeners. -/
def ms_base : messaging_service :=
  { _stopping := false
  , _port := 7000
  , _ssl_port := 7001
  , _encrypt_what := encrypt_what.none
  , _compress_what := compress_what.none
  , _listen_address := 1
  , _preferred_ip_cache := []
  , _clients0 := []
  , _clients1 := []
  , _dropped_messages := fun _ => 0
  , _server0 := Option.none
  , _server1 := Option.none
  , _server_tls0 := Option.none
  , _server_tls1 := Option.none }

/-- A service whose encrypt policy is `all`. -/
def ms_encrypt_all : messaging_service :=
  { ms_base with _encrypt_what := encrypt_what.all }

/-- A service whose compress policy is `dc`. -/
def ms_compress_dc : messaging_service :=
  { ms_base with _compress_what := compress_what.dc }

/-- A service whose preferred-IP cache maps address 5 to address 6. -/
def ms_pref : messaging_service :=
  { ms_base with _preferred_ip_cache := [(5, 6)] }

/-- A stopping service with one cached connection to address 2. -/
def ms_stopped : messaging_service :=
  { ms_base with
      _stopping := true
    , _clients0 := [(2, ⟨{ remote_addr := 2, remote_port := 7000,
                           encrypted := false, compressed := false,
                           error := true }⟩)] }

/-- A service with both plain listener slots and both TLS listener slots
bound (listener ids 10, 11, 20, 21): the configuration reached by
`start_listen` when `_should_listen_to_broadcast_address` holds and the
broadcast address differs from the listen address. -/
def ms_two_listeners : messaging_service :=
  { ms_base with
      _server0 := some 10
    , _server1 := some 11
    , _server_tls0 := some 20
    , _server_tls1 := some 21 }

lemma clients_find_erase (m : clients_map) (k : Nat) :
    clients_find (clients_erase m k) k = Option.none := by
  induction m with
  | nil => rfl
  | cons p rest ih =>
    by_cases h : p.1 = k
    · simpa [clients_erase, h] using ih
    · simpa [clients_erase, clients_find, h] using ih

lemma clients_of_set_clients (ms : messaging_service) (idx : Nat)
    (m : clients_map) : clients_of (set_clients ms idx m) idx = m := by
  by_cases h : idx = 1 <;> simp [set_clients, clients_of, h]

lemma set_clients_dropped (ms : messaging_service) (idx : Nat)
    (m : clients_map) :
    (set_clients ms idx m)._dropped_messages = ms._dropped_messages := by
  by_cases h : idx = 1 <;> simp [set_clients, h]

lemma remove_rpc_client_one_dropped (ms : messaging_service) (idx : Nat)
    (id : msg_addr) (d : Bool) :
    ((remove_rpc_client_one ms idx id d).1)._dropped_messages
      = ms._dropped_messages := by
  unfold remove_rpc_client_one
  split
  · rfl
  · split
    · split
      · simp [set_clients_dropped]
      · rfl
    · rfl

lemma remove_error_rpc_client_dropped (ms : messaging_service)
    (verb : messaging_verb) (id : msg_addr) :
    ((remove_error_rpc_client ms verb id).1)._dropped_messages
      = ms._dropped_messages := by
  unfold remove_error_rpc_client
  exact remove_rpc_client_one_dropped ms _ id true

lemma get_rpc_client_dropped (ms : messaging_service) (verb : messaging_verb)
    (id : msg_addr) :
    ((get_rpc_client ms verb id).2)._dropped_messages
      = ms._dropped_messages := by
  unfold get_rpc_client get_rpc_client_new
  cases hf : clients_find (clients_of ms (get_rpc_client_idx verb)) id.addr with
  | none => simp [hf, set_clients_dropped]
  | some si =>
    by_cases he : si.rpc_client.error
    · simp [hf, he, set_clients_dropped, remove_error_rpc_client_dropped]
    · simp [hf, he]

/-- C9: classOf is a pure (deterministic) function of the verb: class 1 for
`GOSSIP_DIGEST_SYN`, `GOSSIP_DIGEST_ACK2`, `GOSSIP_SHUTDOWN` and
`GOSSIP_ECHO`, class 0 for every other verb, in particular for
`GOSSIP_DIGEST_ACK`. -/
theorem get_rpc_client_idx_spec :
    (∀ v : messaging_verb,
      (get_rpc_client_idx v = 1 ↔
        (v = messaging_verb.GOSSIP_DIGEST_SYN ∨
         v = messaging_verb.GOSSIP_DIGEST_ACK2 ∨
         v = messaging_verb.GOSSIP_SHUTDOWN ∨
         v = messaging_verb.GOSSIP_ECHO)) ∧
      (get_rpc_client_idx v = 0 ↔
        ¬(v = messaging_verb.GOSSIP_DIGEST_SYN ∨
          v = messaging_verb.GOSSIP_DIGEST_ACK2 ∨
          v = messaging_verb.GOSSIP_SHUTDOWN ∨
          v = messaging_verb.GOSSIP_ECHO))) ∧
    get_rpc_client_idx messaging_verb.GOSSIP_DIGEST_ACK = 0 := by
  refine ⟨fun v => ?_, rfl⟩
  cases v <;> exact ⟨by decide, by decide⟩

/-- C2: the `must_encrypt` decision in `get_rpc_client` is the constant
`false` — the policy evaluation is commented out in the source — so the
new connection is never encrypted and always uses the plain port, even
when the encrypt policy is `all` (here with distinct TLS port 7001). -/
theorem must_encrypt_stubbed_false :
    (∀ (ms : messaging_service) (id : msg_addr),
      must_encrypt ms id = false ∧
      (make_new_client ms id).encrypted = false ∧
      (make_new_client ms id).remote_port = ms._port) ∧
    ms_encrypt_all._encrypt_what = encrypt_what.all ∧
    (get_rpc_client ms_encrypt_all messaging_verb.GOSSIP_ECHO ⟨2, 0⟩).1.encrypted
      = false ∧
    (get_rpc_client ms_encrypt_all messaging_verb.GOSSIP_ECHO ⟨2, 0⟩).1.remote_port
      = 7000 ∧
    ms_encrypt_all._ssl_port = 7001 := by
  exact ⟨fun ms id => ⟨rfl, rfl, rfl⟩, rfl, rfl, rfl, rfl⟩

/-- C7: `get_preferred_ip` returns the endpoint itself unconditionally —
the preferred-IP cache lookup and the same-datacenter check are commented
out in the source — even when the cache holds an alternate address for the
endpoint (here 5 ↦ 6). -/
theorem get_preferred_ip_stubbed :
    (∀ (ms : messaging_service) (ep : Nat), get_preferred_ip ms ep = ep) ∧
    ms_pref._preferred_ip_cache = [(5, 6)] ∧
    get_preferred_ip ms_pref 5 = 5 ∧ (5 : Nat) ≠ 6 := by
  exact ⟨fun ms ep => rfl, rfl, rfl, by decide⟩

/-- C8: under compress policy `dc` the `must_compress` decision in
`get_rpc_client` is `true` for every peer — the snitch comparison in the
`dc` branch is commented out in the source, so `dc` behaves like `all`
rather than "different datacenter only". -/
theorem must_compress_dc_stubbed :
    (∀ id : msg_addr, must_compress ms_compress_dc id = true) ∧
    ms_compress_dc._compress_what = compress_what.dc := by
  exact ⟨fun id => rfl, rfl⟩

/-- C4: when `_stopping` holds, each send primitive returns a pre-failed
future carrying `closed_error` and leaves the whole service state — cache
tables and dropped-message counters included — untouched.  `send_message`
covers `sendOneway` (no-wait response type) and `sendRequest`;
`send_message_timeout` covers `sendRequestTimeout` and every attempt of
`sendRequestRetry`. -/
theorem send_when_stopping :
    ∀ (ms : messaging_service) (verb : messaging_verb) (id : msg_addr)
      (o : attempt_result Nat),
      ms._stopping = true →
      send_message ms verb id o = (Except.error rpc_error.closed_error, ms) ∧
      send_message_timeout ms verb id o
        = (Except.error rpc_error.closed_error, ms) := by
  intro ms verb id o h
  constructor <;> simp [send_message, send_message_timeout, h]

/-- C4 witness: a stopping service with a cached connection; a send of
`GOSSIP_ECHO` whose transport would even have succeeded is pre-failed with
`closed_error` and the state is returned unchanged. -/
theorem send_when_stopping_w :
    ms_stopped._stopping = true ∧
    send_message ms_stopped messaging_verb.GOSSIP_ECHO ⟨2, 0⟩
        (attempt_result.ok 0)
      = (Except.error rpc_error.closed_error, ms_stopped) :=
  ⟨rfl, (send_when_stopping ms_stopped messaging_verb.GOSSIP_ECHO ⟨2, 0⟩
          (attempt_result.ok 0) rfl).1⟩

/-- C10: when `_stopping` holds, `remove_rpc_client_one` (hence
`remove_error_rpc_client` and `remove_rpc_client`) returns at once: the
state is unchanged — no cache table is touched — and no connection
`stop()` is scheduled (the scheduled list is empty). -/
theorem remove_noop_when_stopping :
    ∀ (ms : messaging_service) (id : msg_addr) (verb : messaging_verb),
      ms._stopping = true →
      (∀ (idx : Nat) (dead_only : Bool),
        remove_rpc_client_one ms idx id dead_only = (ms, [])) ∧
      remove_error_rpc_client ms verb id = (ms, []) ∧
      remove_rpc_client ms id = (ms, []) := by
  intro ms id verb h
  have h1 : ∀ (idx : Nat) (d : Bool),
      remove_rpc_client_one ms idx id d = (ms, []) := by
    intro idx d
    simp [remove_rpc_client_one, h]
  refine ⟨h1, h1 _ _, ?_⟩
  simp [remove_rpc_client, h1]

/-- C10 witness: on the stopping service with a cached (dead) connection to
address 2, `remove_rpc_client` leaves the state unchanged and schedules no
stop. -/
theorem remove_noop_when_stopping_w :
    ms_stopped._stopping = true ∧
    remove_rpc_client ms_stopped ⟨2, 0⟩ = (ms_stopped, []) :=
  ⟨rfl, (remove_noop_when_stopping ms_stopped ⟨2, 0⟩
          messaging_verb.GOSSIP_ECHO rfl).2.2⟩

/-- C5: the send pipeline on a non-stopping service: every failure is
propagated to the caller unchanged; a `closed_error` failure additionally
routes the state through `remove_error_rpc_client` (after the dropped
counter increment), and any other failure leaves the post-increment state
untouched — no eviction.  The last conjunct spells out the eviction:
whenever the entry for the peer in the verb's class is in error state,
`remove_error_rpc_client` erases it, so the next `get_rpc_client` call
rebuilds the connection. -/
theorem send_message_error_recovery :
    ∀ (ms : messaging_service) (verb : messaging_verb) (id : msg_addr)
      (e : rpc_error),
      ms._stopping = false →
      ((@send_message Nat ms verb id (attempt_result.err e)).1
        = Except.error e) ∧
      (e = rpc_error.closed_error →
        (@send_message Nat ms verb id (attempt_result.err e)).2 =
          (remove_error_rpc_client
            (increment_dropped_messages (get_rpc_client ms verb id).2 verb)
            verb id).1) ∧
      (e ≠ rpc_error.closed_error →
        (@send_message Nat ms verb id (attempt_result.err e)).2 =
          increment_dropped_messages (get_rpc_client ms verb id).2 verb) ∧
      (∀ (ms₂ : messaging_service) (si : shard_info),
        ms₂._stopping = false →
        clients_find (clients_of ms₂ (get_rpc_client_idx verb)) id.addr
          = some si →
        si.rpc_client.error = true →
        clients_find
          (clients_of (remove_error_rpc_client ms₂ verb id).1
            (get_rpc_client_idx verb)) id.addr = Option.none) := by
  intro ms verb id e h
  refine ⟨?_, ?_, ?_, ?_⟩
  · cases e <;> simp [send_message, h]
  · intro he; subst he; simp [send_message, h]
  · intro he; cases e <;> simp [send_message, h] <;> simp at he
  · intro ms₂ si h₂ hf he
    simp [remove_error_rpc_client, remove_rpc_client_one, h₂, hf, he,
          clients_of_set_clients, clients_find_erase]

/-- C5 witness: on the quiescent service, a send of `GOSSIP_ECHO` whose
rpc future fails with a non-transport error propagates that error to the
caller. -/
theorem send_message_error_recovery_w :
    (@send_message Nat ms_base messaging_verb.GOSSIP_ECHO ⟨2, 0⟩
        (attempt_result.err rpc_error.other_error)).1
      = Except.error rpc_error.other_error :=
  (send_message_error_recovery ms_base messaging_verb.GOSSIP_ECHO ⟨2, 0⟩
    rpc_error.other_error rfl).1

/-- C1 (counterexample): with all four listener slots bound — the state
`start_listen` reaches when listening to the broadcast address —
`stop()` awaits the stop of slot 0 only, in each server group: the loops
in `stop_nontls_server` and `stop_tls_server` return the first non-null
slot's stop future.  The listener in plain slot 1 (id 11) and the one in
TLS slot 1 (id 21) are bound but their stops are not awaited. -/
theorem stop_skips_second_listener :
    ms_two_listeners._server1 = some 11 ∧
    ¬(11 ∈ (stop ms_two_listeners).2.1) ∧
    ms_two_listeners._server_tls1 = some 21 ∧
    ¬(21 ∈ (stop ms_two_listeners).2.2.1) := by
  refine ⟨rfl, ?_, rfl, ?_⟩ <;> decide

/-- C1 (amended): `stop()` sets `_stopping` (leaving every other field in
place) and awaits, in parallel across the three groups, (1) the stop of
the first bound plain listener slot — slot 0 if bound, else slot 1, none
otherwise — (2) likewise the first bound TLS listener slot, and (3) the
stops of all cached connections of both verb-class tables concurrently;
the aggregate resolves once all three groups have finished.  A second
bound listener slot is not stopped. -/
theorem stop_behavior :
    ∀ ms : messaging_service,
      ((stop ms).1 = { ms with _stopping := true }) ∧
      (∀ l, ms._server0 = some l → (stop ms).2.1 = [l]) ∧
      (ms._server0 = Option.none → (stop ms).2.1 = ms._server1.toList) ∧
      (∀ l, ms._server_tls0 = some l → (stop ms).2.2.1 = [l]) ∧
      (ms._server_tls0 = Option.none →
        (stop ms).2.2.1 = ms._server_tls1.toList) ∧
      ((stop ms).2.2.2
        = (ms._clients0 ++ ms._clients1).map (fun p => p.2.rpc_client)) ∧
      (∀ p, p ∈ ms._clients0 ++ ms._clients1 →
        p.2.rpc_client ∈ (stop ms).2.2.2) := by
  intro ms
  refine ⟨rfl, ?_, ?_, ?_, ?_, rfl, ?_⟩
  · intro l h; simp [stop, stop_nontls_server, h]
  · intro h
    cases h₁ : ms._server1 <;> simp [stop, stop_nontls_server, h, h₁]
  · intro l h; simp [stop, stop_tls_server, h]
  · intro h
    cases h₁ : ms._server_tls1 <;> simp [stop, stop_tls_server, h, h₁]
  · intro p hp
    show p.2.rpc_client ∈
      (ms._clients0 ++ ms._clients1).map (fun q => q.2.rpc_client)
    exact List.mem_map_of_mem _ hp

/-- C1 witness: on the four-listener state, `stop()` awaits exactly the
stop of plain slot 0 (id 10) and of TLS slot 0 (id 20). -/
theorem stop_behavior_w :
    (stop ms_two_listeners).2.1 = [10] ∧
    (stop ms_two_listeners).2.2.1 = [20] :=
  ⟨(stop_behavior ms_two_listeners).2.1 10 rfl,
   (stop_behavior ms_two_listeners).2.2.2.1 20 rfl⟩

lemma retry_step_closed {α : Type} (f : Nat → attempt_result α) (r k : Nat)
    (hfk : f k = attempt_result.err rpc_error.closed_error) :
    send_message_timeout_and_retry f false true (r + 2) k =
      ((send_message_timeout_and_retry f false true (r + 1) (k + 1)).1,
       (send_message_timeout_and_retry f false true (r + 1) (k + 1)).2 + 1) := by
  simp [send_message_timeout_and_retry, hfk]

lemma retry_skip {α : Type} (f : Nat → attempt_result α) :
    ∀ (j N k : Nat), j < N →
      (∀ i, i < j →
        f (k + i) = attempt_result.err rpc_error.closed_error) →
      send_message_timeout_and_retry f false true N k =
        ((send_message_timeout_and_retry f false true (N - j) (k + j)).1,
         (send_message_timeout_and_retry f false true (N - j) (k + j)).2 + j)
  | 0, N, k, _, _ => by simp
  | j + 1, N, k, h, hpre => by
    obtain ⟨r, rfl⟩ : ∃ r, N = r + 2 := ⟨N - 2, by omega⟩
    have hfk : f k = attempt_result.err rpc_error.closed_error := by
      simpa using hpre 0 (by omega)
    have hrec := retry_skip f j (r + 1) (k + 1) (by omega)
      (fun i hi => by
        have := hpre (i + 1) (by omega)
        have e : k + (i + 1) = k + 1 + i := by omega
        rwa [e] at this)
    have e₁ : r + 1 - j = r + 2 - (j + 1) := by omega
    have e₂ : k + 1 + j = k + (j + 1) := by omega
    rw [retry_step_closed f r k hfk, hrec, e₁, e₂]
    simp [Nat.add_assoc]

/-- C3: the retry law of `send_message_timeout_and_retry` with budget
`N ≥ 1`, the service not stopping and the peer known to gossip.  First
conjunct: if the first `k < N` attempts fail with `closed_error` and the
`(k+1)`-th succeeds, the call returns that response after exactly `k + 1`
attempts.  Second: if every attempt fails with `closed_error`, the call
fails with `closed_error` after exactly `N` attempts.  Third: a
`timeout_error` on any attempt (here the `(j+1)`-th, after `j` closed
failures) is propagated at once, with no further attempt. -/
theorem send_message_timeout_and_retry_spec :
    (∀ (α : Type) (f : Nat → attempt_result α) (N k : Nat) (v : α),
      k < N →
      (∀ i, i < k → f i = attempt_result.err rpc_error.closed_error) →
      f k = attempt_result.ok v →
      send_message_timeout_and_retry f false true N 0
        = (Except.ok v, k + 1)) ∧
    (∀ (α : Type) (f : Nat → attempt_result α) (N : Nat),
      1 ≤ N →
      (∀ i, i < N → f i = attempt_result.err rpc_error.closed_error) →
      send_message_timeout_and_retry f false true N 0
        = (Except.error rpc_error.closed_error, N)) ∧
    (∀ (α : Type) (f : Nat → attempt_result α) (N j : Nat),
      j < N →
      (∀ i, i < j → f i = attempt_result.err rpc_error.closed_error) →
      f j = attempt_result.err rpc_error.timeout_error →
      send_message_timeout_and_retry f false true N 0
        = (Except.error rpc_error.timeout_error, j + 1)) := by
  refine ⟨?_, ?_, ?_⟩
  · intro α f N k v hk hpre hok
    have hskip := retry_skip f k N 0 hk (fun i hi => by simpa using hpre i hi)
    have hlast : send_message_timeout_and_retry f false true (N - k) (0 + k)
        = (Except.ok v, 1) := by
      simp [send_message_timeout_and_retry, hok]
    rw [hskip, hlast]
    simp [Nat.add_comm]
  · intro α f N h1 hpre
    have hskip := retry_skip f (N - 1) N 0 (by omega)
      (fun i hi => by simpa using hpre i (by omega))
    have e : N - (N - 1) = 1 := by omega
    have hlast : send_message_timeout_and_retry f false true (N - (N - 1))
        (0 + (N - 1)) = (Except.error rpc_error.closed_error, 1) := by
      rw [e]
      simp [send_message_timeout_and_retry, hpre (N - 1) (by omega)]
    rw [hskip, hlast]
    simp
    omega
  · intro α f N j hj hpre htime
    have hskip := retry_skip f j N 0 hj (fun i hi => by simpa using hpre i hi)
    have hlast : send_message_timeout_and_retry f false true (N - j) (0 + j)
        = (Except.error rpc_error.timeout_error, 1) := by
      simp [send_message_timeout_and_retry, htime]
    rw [hskip, hlast]
    simp [Nat.add_comm]

/-- C3 witness: with budget 3, an adversary failing the first two attempts
with `closed_error` and succeeding the third makes the call return the
response after 3 attempts; with budget 2 and every attempt failing with
`closed_error` the call fails with `closed_error` after exactly 2
attempts; an adversary timing out the very first attempt makes the call
fail with `timeout_error` after a single attempt. -/
theorem send_message_timeout_and_retry_spec_w :
    send_message_timeout_and_retry
        (fun i => if i < 2 then attempt_result.err rpc_error.closed_error
                  else attempt_result.ok 7) false true 3 0
      = (Except.ok 7, 3) ∧
    send_message_timeout_and_retry
        (fun _ => (attempt_result.err rpc_error.closed_error :
          attempt_result Nat)) false true 2 0
      = (Except.error rpc_error.closed_error, 2) ∧
    send_message_timeout_and_retry
        (fun _ => (attempt_result.err rpc_error.timeout_error :
          attempt_result Nat)) false true 5 0
      = (Except.error rpc_error.timeout_error, 1) :=
  ⟨send_message_timeout_and_retry_spec.1 Nat _ 3 2 7 (by decide)
      (fun i hi => by interval_cases i <;> rfl) (by decide),
   send_message_timeout_and_retry_spec.2.1 Nat _ 2 (by decide)
      (fun i _ => rfl),
   send_message_timeout_and_retry_spec.2.2 Nat _ 5 0 (by decide)
      (fun i hi => absurd hi (by omega)) rfl⟩

lemma send_message_dropped (ms : messaging_service) (verb : messaging_verb)
    (id : msg_addr) (o : attempt_result Nat) (v : messaging_verb) :
    ((send_message ms verb id o).2)._dropped_messages v =
      if ms._stopping = false ∧ verb = v ∧ attempt_failed o = true
      then (ms._dropped_messages v + 1) % 2 ^ 64
      else ms._dropped_messages v := by
  by_cases hs : ms._stopping
  · simp [send_message, hs]
  · have hs₂ : ms._stopping = false := by simpa using hs
    cases o with
    | ok x =>
      simp [send_message, hs₂, attempt_failed, get_rpc_client_dropped]
    | err e =>
      by_cases hv : verb = v
      · subst hv
        cases e <;>
          simp [send_message, hs₂, attempt_failed,
                remove_error_rpc_client_dropped, increment_dropped_messages,
                get_rpc_client_dropped]
      · cases e <;>
          simp [send_message, hs₂, attempt_failed,
                remove_error_rpc_client_dropped, increment_dropped_messages,
                get_rpc_client_dropped, hv, Ne.symm hv]

lemma ms_run_dropped (v : messaging_verb) :
    ∀ (tr : List ms_event) (ms : messaging_service),
      ms._dropped_messages v < 2 ^ 64 →
      (ms_run ms tr)._dropped_messages v =
        (ms._dropped_messages v + outbound_failures ms v tr) % 2 ^ 64 := by
  intro tr
  induction tr with
  | nil =>
    intro ms h
    have h₂ : ms._dropped_messages v < 18446744073709551616 :=
      lt_of_lt_of_le h (by norm_num)
    simp [ms_run, outbound_failures, Nat.mod_eq_of_lt h₂]
  | cons e tr ih =>
    intro ms h
    cases e with
    | stop_ev =>
      have hstep : (ms_step ms ms_event.stop_ev)._dropped_messages
          = ms._dropped_messages := rfl
      have := ih (ms_step ms ms_event.stop_ev) (by rw [hstep]; exact h)
      simpa [ms_run, outbound_failures, hstep] using this
    | send_ev v₂ id o =>
      have hstep := send_message_dropped ms v₂ id o v
      by_cases hc : ms._stopping = false ∧ v₂ = v ∧ attempt_failed o = true
      · have hd : (ms_step ms (ms_event.send_ev v₂ id o))._dropped_messages v
            = (ms._dropped_messages v + 1) % 2 ^ 64 := by
          simpa [ms_step, hc] using hstep
        have hlt : (ms._dropped_messages v + 1) % 2 ^ 64 < 2 ^ 64 :=
          Nat.mod_lt _ (by norm_num)
        have hrec := ih (ms_step ms (ms_event.send_ev v₂ id o))
          (by rw [hd]; exact hlt)
        rw [ms_run, hrec, hd, Nat.mod_add_mod]
        have hout : outbound_failures ms v (ms_event.send_ev v₂ id o :: tr)
            = 1 + outbound_failures (ms_step ms (ms_event.send_ev v₂ id o)) v tr := by
          simp [outbound_failures, hc]
        rw [hout]
        ring_nf
      · have hd : (ms_step ms (ms_event.send_ev v₂ id o))._dropped_messages v
            = ms._dropped_messages v := by
          simpa [ms_step, hc] using hstep
        have hrec := ih (ms_step ms (ms_event.send_ev v₂ id o))
          (by rw [hd]; exact h)
        rw [ms_run, hrec, hd]
        have hout : outbound_failures ms v (ms_event.send_ev v₂ id o :: tr)
            = outbound_failures (ms_step ms (ms_event.send_ev v₂ id o)) v tr := by
          simp [outbound_failures, hc]
        rw [hout]

lemma outbound_failures_append (v : messaging_verb) :
    ∀ (tr₁ tr₂ : List ms_event) (ms : messaging_service),
      outbound_failures ms v (tr₁ ++ tr₂) =
        outbound_failures ms v tr₁ +
          outbound_failures (ms_run ms tr₁) v tr₂ := by
  intro tr₁
  induction tr₁ with
  | nil => intro tr₂ ms; simp [outbound_failures, ms_run]
  | cons e tr ih =>
    intro tr₂ ms
    simp [outbound_failures, ms_run, ih, Nat.add_assoc]

/-- C6: the dropped-message counter for a verb `v` on a service whose `v`
counter starts at zero.  First conjunct: after any run of send and stop
events whose number of failing outbound sends for `v` stays below `2^64`
(the counter cell is a `uint64_t`), the counter equals the number of send
futures for `v` that resolved with failure — sends issued while stopping
are pre-failed without reaching the transport and have no side effects, so
they are not outbound and not counted.  Second conjunct: the counter is
monotonically non-decreasing along any prefix of such a run.  Third
conjunct: one send increments the counter exactly when it is outbound
(not stopping) for that verb and its future resolves with failure, and
leaves it untouched otherwise. -/
theorem dropped_messages_spec :
    (∀ (ms : messaging_service) (tr : List ms_event) (v : messaging_verb),
      ms._dropped_messages v = 0 →
      outbound_failures ms v tr < 2 ^ 64 →
      (ms_run ms tr)._dropped_messages v = outbound_failures ms v tr) ∧
    (∀ (ms : messaging_service) (tr₁ tr₂ : List ms_event) (v : messaging_verb),
      ms._dropped_messages v = 0 →
      outbound_failures ms v (tr₁ ++ tr₂) < 2 ^ 64 →
      (ms_run ms tr₁)._dropped_messages v
        ≤ (ms_run ms (tr₁ ++ tr₂))._dropped_messages v) ∧
    (∀ (ms : messaging_service) (verb : messaging_verb) (id : msg_addr)
      (o : attempt_result Nat) (v : messaging_verb),
      ((send_message ms verb id o).2)._dropped_messages v =
        if ms._stopping = false ∧ verb = v ∧ attempt_failed o = true
        then (ms._dropped_messages v + 1) % 2 ^ 64
        else ms._dropped_messages v) := by
  have key : ∀ (ms : messaging_service) (tr : List ms_event)
      (v : messaging_verb),
      ms._dropped_messages v = 0 →
      outbound_failures ms v tr < 2 ^ 64 →
      (ms_run ms tr)._dropped_messages v = outbound_failures ms v tr := by
    intro ms tr v h0 hbound
    have := ms_run_dropped v tr ms (by rw [h0]; norm_num)
    rw [this, h0, Nat.zero_add, Nat.mod_eq_of_lt hbound]
  refine ⟨key, ?_, send_message_dropped⟩
  intro ms tr₁ tr₂ v h0 hbound
  have hsplit := outbound_failures_append v tr₁ tr₂ ms
  have hb₁ : outbound_failures ms v tr₁ < 2 ^ 64 := by omega
  rw [key ms tr₁ v h0 hb₁, key ms (tr₁ ++ tr₂) v h0 hbound, hsplit]
  omega

/-- C6 witness: starting from the quiescent service, a trace with one
outbound `GOSSIP_ECHO` send failing with `closed_error` followed by one
succeeding leaves the `GOSSIP_ECHO` dropped counter equal to the number of
failed outbound sends. -/
theorem dropped_messages_spec_w :
    (ms_run ms_base
        [ms_event.send_ev messaging_verb.GOSSIP_ECHO ⟨2, 0⟩
           (attempt_result.err rpc_error.closed_error),
         ms_event.send_ev messaging_verb.GOSSIP_ECHO ⟨2, 0⟩
           (attempt_result.ok 5)])._dropped_messages
        messaging_verb.GOSSIP_ECHO
      = outbound_failures ms_base messaging_verb.GOSSIP_ECHO
          [ms_event.send_ev messaging_verb.GOSSIP_ECHO ⟨2, 0⟩
             (attempt_result.err rpc_error.closed_error),
           ms_event.send_ev messaging_verb.GOSSIP_ECHO ⟨2, 0⟩
             (attempt_result.ok 5)] :=
  dropped_messages_spec.1 ms_base _ messaging_verb.GOSSIP_ECHO rfl
    (by norm_num [outbound_failures, ms_step, ms_base, send_message,
                  attempt_failed])

end net
